import Mathlib

/-!
Shallow embedding of `app/middleware/circuit_breaker.py`.

Timestamps are modeled as integer-valued seconds (`Int`); the Python code uses
`time.time()` floats, but every claim under study is insensitive to sub-second
fractions, and with integer timestamps Python's `int(...)` truncation in the
`retry_after` computation is the identity.
-/

namespace CircuitBreakerModel

/-- Circuit breaker states, from the `CircuitState` enum. -/
inductive CircuitState where
  | CLOSED
  | OPEN
  | HALF_OPEN
deriving DecidableEq, Repr

/-- State of a `CircuitBreaker` instance: configuration (`failure_threshold`,
`success_threshold`, `timeout`, `excluded_paths`), the circuit tracking fields,
and the three metrics counters (kept as separate fields rather than a dict). -/
structure Breaker where
  failure_threshold : Nat
  success_threshold : Nat
  timeout : Int
  excluded_paths : List String
  state : CircuitState
  failure_count : Nat
  success_count : Nat
  last_failure_time : Option Int
  total_requests : Nat
  failed_requests : Nat
  rejected_requests : Nat
deriving DecidableEq, Repr

/-- Contiguous-sublist test on character lists: does `needle` occur as a
contiguous run inside `haystack`? -/
def subList (needle : List Char) : List Char → Bool
  | [] => needle.isEmpty
  | c :: cs => needle.isPrefixOf (c :: cs) || subList needle cs

/-- Substring containment, modeling Python's `needle in haystack` on strings. -/
def strContainsSub (haystack needle : String) : Bool :=
  subList needle.data haystack.data

/-- Model of `CircuitBreaker.should_exclude_path`:
`any(excluded in path for excluded in self.excluded_paths)` — note this is a
substring test, not a prefix test. -/
def should_exclude_path (b : Breaker) (path : String) : Bool :=
  b.excluded_paths.any (fun excluded => strContainsSub path excluded)

/-- Python truthiness of `self.last_failure_time` (`None` and `0` are falsy). -/
def lftTruthy : Option Int → Bool
  | none => false
  | some t => t ≠ 0

/-- Value of `self.last_failure_time or 0`. -/
def lftVal : Option Int → Int
  | none => 0
  | some t => t

/-- A rejection response produced by `call` (a 503 `JSONResponse` whose content
carries `retry_after`). -/
structure Rejection where
  status_code : Nat
  retry_after : Int
deriving DecidableEq, Repr

/-- Model of `CircuitBreaker.call`: returns the updated breaker and
`some rejection` when the request is rejected, `none` when it is allowed. -/
def call (b : Breaker) (now : Int) (path : String) : Breaker × Option Rejection :=
  if should_exclude_path b path then (b, none)
  else
    let b1 := { b with total_requests := b.total_requests + 1 }
    if b1.state = CircuitState.OPEN then
      if lftTruthy b1.last_failure_time ∧ now - lftVal b1.last_failure_time > b1.timeout then
        ({ b1 with state := CircuitState.HALF_OPEN, success_count := 0 }, none)
      else
        ({ b1 with rejected_requests := b1.rejected_requests + 1 },
         some ⟨503, b1.timeout - (now - lftVal b1.last_failure_time)⟩)
    else (b1, none)

/-- Model of `CircuitBreaker.on_success`. -/
def on_success (b : Breaker) : Breaker :=
  if b.state = CircuitState.HALF_OPEN then
    let b1 := { b with success_count := b.success_count + 1 }
    if b1.success_count ≥ b1.success_threshold then
      { b1 with state := CircuitState.CLOSED, failure_count := 0, success_count := 0 }
    else b1
  else if b.state = CircuitState.CLOSED then
    { b with failure_count := b.failure_count - 1 }
  else b

/-- Model of `CircuitBreaker.on_failure` (`now` is the `time.time()` reading). -/
def on_failure (b : Breaker) (now : Int) : Breaker :=
  let b1 := { b with failed_requests := b.failed_requests + 1, last_failure_time := some now }
  if b1.state = CircuitState.HALF_OPEN then
    { b1 with state := CircuitState.OPEN, success_count := 0 }
  else if b1.state = CircuitState.CLOSED then
    let b2 := { b1 with failure_count := b1.failure_count + 1 }
    if b2.failure_count ≥ b2.failure_threshold then
      { b2 with state := CircuitState.OPEN }
    else b2
  else b1

/-- Outcome of the guarded operation (`call_next`): an HTTP status, or an
unhandled exception. -/
inductive HandlerOutcome where
  | status (code : Nat)
  | raised
deriving DecidableEq, Repr

/-- Response produced by the middleware. -/
inductive MwResponse where
  | pass (code : Nat)
  | reject (status_code : Nat) (retry_after : Int)
  | exn
deriving DecidableEq, Repr

/-- Model of `circuit_breaker_middleware`: runs `call`; on rejection returns the
rejection without invoking the guarded operation; otherwise invokes it and
records the outcome (5xx or an exception is a failure, all else success).
The Bool result tells whether the guarded operation (`call_next`) was invoked. -/
def middleware (b : Breaker) (now : Int) (path : String) (h : HandlerOutcome) :
    Breaker × MwResponse × Bool :=
  match call b now path with
  | (b1, some rej) => (b1, MwResponse.reject rej.status_code rej.retry_after, false)
  | (b1, none) =>
    match h with
    | HandlerOutcome.status code =>
      if code ≥ 500 then (on_failure b1 now, MwResponse.pass code, true)
      else (on_success b1, MwResponse.pass code, true)
    | HandlerOutcome.raised => (on_failure b1 now, MwResponse.exn, true)

/-- A run of consecutive `on_failure` calls at the given times. -/
def failRun (b : Breaker) (ts : List Int) : Breaker :=
  ts.foldl on_failure b

/-- A run of `n` consecutive `on_success` calls. -/
def successRun (b : Breaker) (n : Nat) : Breaker :=
  on_success^[n] b

/-- The global `circuit_breaker` instance created at module import
(`failure_threshold=5, success_threshold=2, timeout=60`, default excluded paths). -/
def defaultBreaker : Breaker :=
  { failure_threshold := 5
    success_threshold := 2
    timeout := 60
    excluded_paths := ["/health", "/docs", "/openapi.json", "/redoc"]
    state := CircuitState.CLOSED
    failure_count := 0
    success_count := 0
    last_failure_time := none
    total_requests := 0
    failed_requests := 0
    rejected_requests := 0 }

/-- C1 witness helper state: the breaker after five consecutive failures. -/
def c1TripState : Breaker := failRun defaultBreaker [100, 101, 102, 103, 104]

end CircuitBreakerModel

/-!
Shallow embedding of `app/middleware/rate_limiter.py` (identity key and quota
selection, and the 429 rejection handler).
-/

namespace RateLimiterModel

open CircuitBreakerModel (strContainsSub)

/-- The user dict placed on `request.state.user` by the gateway authentication
middleware (`app/middleware/authentication.py` lines 104-109). The middleware
rejects requests with a missing `x-user-id` header, so `userId` is non-empty on
every request it lets through; `pricingPlan` is the raw `x-user-pricing-plan`
header, which may be absent (`None`). The `roles`/`username` entries are
irrelevant to rate limiting and are omitted. `none` at the `Option GatewayUser`
level models a request with no `request.state.user` attribute. -/
structure GatewayUser where
  userId : String
  pricingPlan : Option String
deriving DecidableEq, Repr

/-- Model of `get_user_identifier`: `user:<id>` for an authenticated user with
a truthy `userId`, else `ip:<remote address>`. -/
def get_user_identifier (user : Option GatewayUser) (remote_addr : String) : String :=
  match user with
  | some u => if u.userId = "" then "ip:" ++ remote_addr else "user:" ++ u.userId
  | none => "ip:" ++ remote_addr

/-- The `limits` tier table of `get_rate_limit_for_user`. -/
def rate_limits : List (String × String) :=
  [("free", "20/minute"), ("pro", "50/minute"), ("studio", "200/minute")]

/-- Model of `get_rate_limit_for_user`: `10/minute` when unauthenticated;
otherwise the tier table entry for the stored `pricingPlan` value, falling back
to `limits["free"]` when the plan is absent (`None`) or not a table key. -/
def get_rate_limit_for_user (user : Option GatewayUser) : String :=
  match user with
  | none => "10/minute"
  | some u =>
    match u.pricingPlan with
    | none => "20/minute"
    | some plan =>
      match List.lookup plan rate_limits with
      | some l => l
      | none => "20/minute"

/-- Python `str(x)` for an optional string (`None` prints as `"None"`). -/
def pyStrOfOpt : Option String → String
  | some s => s
  | none => "None"

/-- Helper for `pySplit`: scan the haystack left to right, splitting at each
occurrence of `sep` (fuel decreases on every step). -/
def splitOnAux (sep : List Char) : Nat → List Char → List Char → List (List Char)
  | 0, acc, rest => [acc.reverse ++ rest]
  | fuel + 1, acc, rest =>
    if sep.isPrefixOf rest then
      acc.reverse :: splitOnAux sep fuel [] (rest.drop sep.length)
    else
      match rest with
      | [] => [acc.reverse]
      | c :: cs => splitOnAux sep fuel (c :: acc) cs

/-- Model of Python `s.split(sep)` for a non-empty separator. -/
def pySplit (s sep : String) : List String :=
  (splitOnAux sep.data (s.data.length + 1) [] s.data).map (fun l => ⟨l⟩)

/-- The JSON body of the 429 response built by `rate_limit_handler`. -/
structure RateLimitContent where
  error : String
  message : String
  currentPlan : Option String
  upgradeInfo : String
  retryAfter : Option String
deriving DecidableEq, Repr

/-- Python list indexing `xs[i]` for a non-negative index: raises `IndexError`
when the index is out of range. -/
def pyIndex (xs : List String) (i : Nat) : Except String String :=
  match xs.get? i with
  | some x => Except.ok x
  | none => Except.error "IndexError: list index out of range"

/-- The `plan` local of `rate_limit_handler`: initialized to `"free"` and
overwritten with the stored `pricingPlan` value when a user dict is present. -/
def handlerPlan (user : Option GatewayUser) : Option String :=
  match user with
  | some u => u.pricingPlan
  | none => some "free"

/-- The `content` dict of the 429 `JSONResponse` built by
`rate_limit_handler`. -/
def rejectionContent (plan retryAfter : Option String) : RateLimitContent :=
  { error := "Too many requests"
    message := "Rate limit exceeded for " ++ pyStrOfOpt plan ++ " plan"
    currentPlan := plan
    upgradeInfo := "Upgrade your plan for higher limits"
    retryAfter := retryAfter }

/-- Model of `rate_limit_handler` for a `RateLimitExceeded` exception whose
`detail` string is given. The `retryAfter` entry is computed as
`exc.detail.split("Retry after ")[1] if "Retry after" in exc.detail else None`:
when the detail contains `"Retry after"` the split on `"Retry after "` (note
the trailing space) is indexed at 1, and if that index is out of range —
the detail contains `"Retry after"` but never followed by a space — the `[1]`
raises `IndexError` out of the handler and no 429 response is built
(`Except.error`). Otherwise the handler returns the 429 response with the plan
from the user state. -/
def rate_limit_handler (user : Option GatewayUser) (detail : String) :
    Except String (Nat × RateLimitContent) :=
  let plan : Option String := handlerPlan user
  let retryAfter : Except String (Option String) :=
    if strContainsSub detail "Retry after" then
      (pyIndex (pySplit detail "Retry after ") 1).map (fun s => some s)
    else Except.ok none
  match retryAfter with
  | Except.error e => Except.error e
  | Except.ok ra => Except.ok (429, rejectionContent plan ra)

/-- The tier table as the claim states it (spec-side definition, for comparison
with the code-side `get_rate_limit_for_user`): free → 20/minute, pro →
50/minute, studio → 200/minute, anything else → the free quota. -/
def tierQuotaSpec (plan : Option String) : String :=
  match plan with
  | none => "20/minute"
  | some p =>
    if p = "free" then "20/minute"
    else if p = "pro" then "50/minute"
    else if p = "studio" then "200/minute"
    else "20/minute"

end RateLimiterModel

/-!
Shallow embedding of `app/services/kafka_consumer.py`.
-/

namespace KafkaModel

/-- Connection-retry configuration consumed by `start_kafka_consumer`
(`KAFKA_CONNECTION_MAX_RETRIES`, and the two delays in milliseconds). -/
structure KafkaConnSettings where
  KAFKA_CONNECTION_MAX_RETRIES : Nat
  KAFKA_CONNECTION_RETRY_DELAY : Nat
  KAFKA_COOLDOWN : Nat
deriving DecidableEq, Repr

/-- The local `retry_delay = settings.KAFKA_CONNECTION_RETRY_DELAY / 1000`
(true division, in seconds). -/
def retry_delay (s : KafkaConnSettings) : ℚ :=
  (s.KAFKA_CONNECTION_RETRY_DELAY : ℚ) / 1000

/-- The local `cooldown_after_fail = settings.KAFKA_COOLDOWN / 1000`. -/
def cooldown_after_fail (s : KafkaConnSettings) : ℚ :=
  (s.KAFKA_COOLDOWN : ℚ) / 1000

/-- Result of one iteration of the `while True` connect loop of
`start_kafka_consumer`: the new `attempt` counter, the new `is_connected`
flag, the duration slept (if any), and whether the loop exited (`break`). -/
structure ConnectStep where
  attempt : Nat
  is_connected : Bool
  slept : Option ℚ
  exited : Bool
deriving DecidableEq, Repr

/-- Model of one iteration of the connect loop: on success (`ok = true`) set
`is_connected`, reset `attempt = 1` and `break`; on failure, if
`attempt >= max_retries` sleep the cooldown and reset `attempt = 1`, else
sleep the retry delay and increment `attempt`. -/
def connect_attempt_step (s : KafkaConnSettings) (attempt : Nat) (ok : Bool) : ConnectStep :=
  if ok then
    { attempt := 1, is_connected := true, slept := none, exited := true }
  else if attempt ≥ s.KAFKA_CONNECTION_MAX_RETRIES then
    { attempt := 1, is_connected := false, slept := some (cooldown_after_fail s),
      exited := false }
  else
    { attempt := attempt + 1, is_connected := false, slept := some (retry_delay s),
      exited := false }

/-- Run of the connect loop over a list of attempt outcomes, starting at the
given `attempt` value: returns the final `attempt` counter, the sequence of
sleeps performed, and whether the loop exited via a successful connection. -/
def connect_run (s : KafkaConnSettings) : Nat → List Bool → Nat × List ℚ × Bool
  | attempt, [] => (attempt, [], false)
  | attempt, ok :: rest =>
    let st := connect_attempt_step s attempt ok
    if st.exited then (st.attempt, [], true)
    else
      let r := connect_run s st.attempt rest
      (r.1, st.slept.toList ++ r.2.1, r.2.2)

/-- The default connection settings from `app/core/config.py`
(`max retries 10`, `retry delay 3000 ms`, `cooldown 30000 ms`). -/
def defaultConnSettings : KafkaConnSettings :=
  { KAFKA_CONNECTION_MAX_RETRIES := 10
    KAFKA_CONNECTION_RETRY_DELAY := 3000
    KAFKA_COOLDOWN := 30000 }

/-! UTF-8 decoding, modeling Python `bytes.decode("utf-8")` (strict) and
`bytes.decode("utf-8", errors="replace")`. Bytes are `Nat`s below 256. -/

/-- Is this byte a UTF-8 continuation byte (`0x80..0xBF`)? -/
def isCont (b : Nat) : Bool := 0x80 ≤ b && b ≤ 0xBF

/-- Decode one scalar value from the head of a byte list. Returns
`(some codepoint, bytes consumed)` on success, and on failure
`(none, k)` where `k ≥ 1` is the length of the maximal valid subpart to skip
(the behaviour of Python's `errors="replace"`, substitution of maximal
subparts: one replacement char per skipped subpart). Overlong encodings,
surrogates and out-of-range leads are invalid, exactly as in Python. -/
def utf8DecodeOne : List Nat → Option Nat × Nat
  | [] => (none, 1)
  | b :: rest =>
    if b ≤ 0x7F then (some b, 1)
    else if b ≤ 0xC1 then (none, 1)
    else if b ≤ 0xDF then
      match rest with
      | c1 :: _ =>
        if isCont c1 then (some ((b - 0xC0) * 0x40 + (c1 - 0x80)), 2) else (none, 1)
      | [] => (none, 1)
    else if b ≤ 0xEF then
      let lo1 : Nat := if b = 0xE0 then 0xA0 else 0x80
      let hi1 : Nat := if b = 0xED then 0x9F else 0xBF
      match rest with
      | c1 :: rest2 =>
        if lo1 ≤ c1 && c1 ≤ hi1 then
          match rest2 with
          | c2 :: _ =>
            if isCont c2 then
              (some ((b - 0xE0) * 0x1000 + (c1 - 0x80) * 0x40 + (c2 - 0x80)), 3)
            else (none, 2)
          | [] => (none, 2)
        else (none, 1)
      | [] => (none, 1)
    else if b ≤ 0xF4 then
      let lo1 : Nat := if b = 0xF0 then 0x90 else 0x80
      let hi1 : Nat := if b = 0xF4 then 0x8F else 0xBF
      match rest with
      | c1 :: rest2 =>
        if lo1 ≤ c1 && c1 ≤ hi1 then
          match rest2 with
          | c2 :: rest3 =>
            if isCont c2 then
              match rest3 with
              | c3 :: _ =>
                if isCont c3 then
                  (some ((b - 0xF0) * 0x40000 + (c1 - 0x80) * 0x1000 +
                         (c2 - 0x80) * 0x40 + (c3 - 0x80)), 4)
                else (none, 3)
              | [] => (none, 3)
            else (none, 2)
          | [] => (none, 2)
        else (none, 1)
      | [] => (none, 1)
    else (none, 1)

/-- Fuel-driven worker for replace-mode decoding (each step consumes at least
one byte, so `fuel = length` suffices). -/
def utf8ReplaceAux : Nat → List Nat → List Char
  | 0, _ => []
  | _, [] => []
  | fuel + 1, bs =>
    let r := utf8DecodeOne bs
    let c := match r.1 with
      | some cp => Char.ofNat cp
      | none => '�'
    c :: utf8ReplaceAux fuel (bs.drop (max r.2 1))

/-- Model of `bytes.decode("utf-8", errors="replace")`. -/
def utf8DecodeReplace (bs : List Nat) : String :=
  ⟨utf8ReplaceAux bs.length bs⟩

/-- Fuel-driven worker for strict decoding. -/
def utf8StrictAux : Nat → List Nat → Option (List Char)
  | 0, bs => if bs.isEmpty then some [] else none
  | _, [] => some []
  | fuel + 1, bs =>
    match utf8DecodeOne bs with
    | (some cp, k) => (utf8StrictAux fuel (bs.drop k)).map (fun cs => Char.ofNat cp :: cs)
    | (none, _) => none

/-- Model of strict `bytes.decode("utf-8")`: `none` means `UnicodeDecodeError`
is raised. -/
def utf8DecodeStrict (bs : List Nat) : Option String :=
  (utf8StrictAux bs.length bs).map (fun cs => ⟨cs⟩)

/-- UTF-8 bytes of an ASCII-only string (test-input helper). -/
def asciiBytes (s : String) : List Nat := s.data.map Char.toNat

/-! A JSON value model and a model of `json.loads` / `json.dumps`.

Objects model Python dicts: `json.loads` keeps the first insertion position of
a key and the last value on duplicate keys, which `dictInsert` reproduces, so
`Json.obj` association lists never hold duplicate keys. Numbers keep their
source lexeme (Python converts to `int`/`float`; no claim under study depends
on numeric values, only on the zero/nonzero distinction captured by
`jsonNumTruthy`, which matches Python except for float overflow/underflow
corner cases no claim touches). -/

inductive Json where
  | null
  | bool (b : Bool)
  | num (lexeme : String)
  | str (s : String)
  | arr (elems : List Json)
  | obj (members : List (String × Json))

/-- Python dict insertion: overwrite the value in place if the key is present,
else append. -/
def dictInsert (kvs : List (String × Json)) (k : String) (v : Json) :
    List (String × Json) :=
  match kvs with
  | [] => [(k, v)]
  | (k0, v0) :: rest =>
    if k0 = k then (k0, v) :: rest else (k0, v0) :: dictInsert rest k v

/-- Python `dict.get(k)` (returning `None` when absent). -/
def dictGet (kvs : List (String × Json)) (k : String) : Option Json :=
  match kvs with
  | [] => none
  | (k0, v0) :: rest => if k0 = k then some v0 else dictGet rest k

/-- Truthiness of a JSON number value (Python: `0`, `0.0`, `-0.0` are falsy).
A numeric lexeme denotes zero exactly when it has digits and every digit of
its mantissa is `0`; `NaN`/`Infinity` lexemes have no digits and are truthy. -/
def jsonNumTruthy (lex : String) : Bool :=
  let mantissa := lex.data.takeWhile (fun c => !(c == 'e' || c == 'E'))
  mantissa.any (fun c => c.isDigit && !(c == '0')) || mantissa.all (fun c => !c.isDigit)

/-- Python truthiness of a decoded JSON value. -/
def Json.truthy : Json → Bool
  | Json.null => false
  | Json.bool b => b
  | Json.num lex => jsonNumTruthy lex
  | Json.str s => !(s == "")
  | Json.arr elems => !elems.isEmpty
  | Json.obj members => !members.isEmpty

/-- The left-brace character, written via its code point. -/
def lbrace : Char := Char.ofNat 123

/-- The right-brace character, written via its code point. -/
def rbrace : Char := Char.ofNat 125

/-- JSON whitespace (the characters `json.loads` skips between tokens). -/
def jsonWs (c : Char) : Bool := c == ' ' || c == '\t' || c == '\n' || c == '\r'

/-- Drop leading JSON whitespace. -/
def skipWs : List Char → List Char
  | [] => []
  | c :: cs => if jsonWs c then skipWs cs else c :: cs

/-- Value of a hex digit character. -/
def hexVal (c : Char) : Option Nat :=
  if '0' ≤ c ∧ c ≤ '9' then some (c.toNat - '0'.toNat)
  else if 'a' ≤ c ∧ c ≤ 'f' then some (c.toNat - 'a'.toNat + 10)
  else if 'A' ≤ c ∧ c ≤ 'F' then some (c.toNat - 'A'.toNat + 10)
  else none

/-- Parse the body of a JSON string (after the opening quote) up to the
closing quote, handling the JSON escapes and `\uXXXX` (combining surrogate
pairs; a lone surrogate escape, which Lean strings cannot represent, goes
through `Char.ofNat`). Raw control characters below `0x20` are rejected as in
Python's strict mode. -/
def parseStrAux : Nat → List Char → Option (List Char × List Char)
  | 0, _ => none
  | _, [] => none
  | fuel + 1, c :: rest =>
    if c == '"' then some ([], rest)
    else if c == '\\' then
      match rest with
      | [] => none
      | e :: rest2 =>
        if e == '"' then (parseStrAux fuel rest2).map (fun p => ('"' :: p.1, p.2))
        else if e == '\\' then (parseStrAux fuel rest2).map (fun p => ('\\' :: p.1, p.2))
        else if e == '/' then (parseStrAux fuel rest2).map (fun p => ('/' :: p.1, p.2))
        else if e == 'b' then (parseStrAux fuel rest2).map (fun p => ('\x08' :: p.1, p.2))
        else if e == 'f' then (parseStrAux fuel rest2).map (fun p => ('\x0c' :: p.1, p.2))
        else if e == 'n' then (parseStrAux fuel rest2).map (fun p => ('\n' :: p.1, p.2))
        else if e == 'r' then (parseStrAux fuel rest2).map (fun p => ('\r' :: p.1, p.2))
        else if e == 't' then (parseStrAux fuel rest2).map (fun p => ('\t' :: p.1, p.2))
        else if e == 'u' then
          match rest2 with
          | h1 :: h2 :: h3 :: h4 :: rest3 =>
            match hexVal h1, hexVal h2, hexVal h3, hexVal h4 with
            | some a, some b, some c1, some d =>
              let cp := ((a * 16 + b) * 16 + c1) * 16 + d
              if 0xD800 ≤ cp ∧ cp ≤ 0xDBFF then
                match rest3 with
                | '\\' :: 'u' :: g1 :: g2 :: g3 :: g4 :: rest4 =>
                  match hexVal g1, hexVal g2, hexVal g3, hexVal g4 with
                  | some a2, some b2, some c2, some d2 =>
                    let cp2 := ((a2 * 16 + b2) * 16 + c2) * 16 + d2
                    if 0xDC00 ≤ cp2 ∧ cp2 ≤ 0xDFFF then
                      (parseStrAux fuel rest4).map (fun p =>
                        (Char.ofNat (0x10000 + (cp - 0xD800) * 0x400 + (cp2 - 0xDC00)) ::
                          p.1, p.2))
                    else
                      (parseStrAux fuel rest3).map (fun p => (Char.ofNat cp :: p.1, p.2))
                  | _, _, _, _ => none
                | _ => (parseStrAux fuel rest3).map (fun p => (Char.ofNat cp :: p.1, p.2))
              else
                (parseStrAux fuel rest3).map (fun p => (Char.ofNat cp :: p.1, p.2))
            | _, _, _, _ => none
          | _ => none
        else none
    else if c.toNat < 0x20 then none
    else (parseStrAux fuel rest).map (fun p => (c :: p.1, p.2))

/-- Take a maximal run of decimal digits. -/
def takeDigits : List Char → List Char × List Char
  | [] => ([], [])
  | c :: cs =>
    if c.isDigit then
      let r := takeDigits cs
      (c :: r.1, r.2)
    else ([], c :: cs)

/-- Parse a JSON number starting at the head of the input (grammar
`-?(0|[1-9][0-9]*)(\.[0-9]+)?([eE][+-]?[0-9]+)?`), returning its lexeme. -/
def parseNumber (input : List Char) : Option (List Char × List Char) :=
  let signAndRest : List Char × List Char :=
    match input with
    | '-' :: r => (['-'], r)
    | r => ([], r)
  match signAndRest.2 with
  | [] => none
  | c :: r2 =>
    if !c.isDigit then none
    else
      let intAndRest : Option (List Char × List Char) :=
        if c == '0' then some (['0'], r2)
        else
          let d := takeDigits r2
          some (c :: d.1, d.2)
      match intAndRest with
      | none => none
      | some (ip, restInt) =>
        let fracAndRest : Option (List Char × List Char) :=
          match restInt with
          | '.' :: rf =>
            let d := takeDigits rf
            if d.1.isEmpty then none else some ('.' :: d.1, d.2)
          | r => some ([], r)
        match fracAndRest with
        | none => none
        | some (fp, restFrac) =>
          let expAndRest : Option (List Char × List Char) :=
            match restFrac with
            | e :: re =>
              if e == 'e' || e == 'E' then
                let signedDigits : List Char × List Char :=
                  match re with
                  | '+' :: rs => (['+'], rs)
                  | '-' :: rs => (['-'], rs)
                  | rs => ([], rs)
                let d := takeDigits signedDigits.2
                if d.1.isEmpty then none else some (e :: signedDigits.1 ++ d.1, d.2)
              else some ([], e :: re)
            | [] => some ([], [])
          match expAndRest with
          | none => none
          | some (ep, restExp) => some (signAndRest.1 ++ ip ++ fp ++ ep, restExp)

mutual

/-- Parse one JSON value (after skipping leading whitespace), modeling
`json.loads` acceptance: strings, numbers, `true`/`false`/`null`, the Python
extensions `NaN`/`Infinity`/`-Infinity`, arrays and objects. The fuel bounds
recursion depth; the top-level entry supplies enough for any input. -/
def parseValue : Nat → List Char → Option (Json × List Char)
  | 0, _ => none
  | fuel + 1, input =>
    match skipWs input with
    | [] => none
    | c :: rest =>
      if c == '"' then
        (parseStrAux (rest.length + 1) rest).map (fun p => (Json.str ⟨p.1⟩, p.2))
      else if c == '[' then
        match skipWs rest with
        | ']' :: r => some (Json.arr [], r)
        | rest1 => (parseElems fuel rest1).map (fun p => (Json.arr p.1, p.2))
      else if c == lbrace then
        match skipWs rest with
        | r0 :: r =>
          if r0 == rbrace then some (Json.obj [], r)
          else parseMembers fuel [] (r0 :: r) |>.map (fun p => (Json.obj p.1, p.2))
        | [] => none
      else if c == 't' then
        match rest with
        | 'r' :: 'u' :: 'e' :: r => some (Json.bool true, r)
        | _ => none
      else if c == 'f' then
        match rest with
        | 'a' :: 'l' :: 's' :: 'e' :: r => some (Json.bool false, r)
        | _ => none
      else if c == 'n' then
        match rest with
        | 'u' :: 'l' :: 'l' :: r => some (Json.null, r)
        | _ => none
      else if c == 'N' then
        match rest with
        | 'a' :: 'N' :: r => some (Json.num "NaN", r)
        | _ => none
      else if c == 'I' then
        match rest with
        | 'n' :: 'f' :: 'i' :: 'n' :: 'i' :: 't' :: 'y' :: r =>
          some (Json.num "Infinity", r)
        | _ => none
      else if c == '-' then
        match rest with
        | 'I' :: 'n' :: 'f' :: 'i' :: 'n' :: 'i' :: 't' :: 'y' :: r =>
          some (Json.num "-Infinity", r)
        | _ => (parseNumber (c :: rest)).map (fun p => (Json.num ⟨p.1⟩, p.2))
      else if c.isDigit then
        (parseNumber (c :: rest)).map (fun p => (Json.num ⟨p.1⟩, p.2))
      else none

/-- Parse the elements of a non-empty JSON array up to and including the
closing bracket. -/
def parseElems : Nat → List Char → Option (List Json × List Char)
  | 0, _ => none
  | fuel + 1, input =>
    match parseValue fuel input with
    | none => none
    | some (v, rest) =>
      match skipWs rest with
      | ',' :: r => (parseElems fuel r).map (fun p => (v :: p.1, p.2))
      | ']' :: r => some ([v], r)
      | _ => none

/-- Parse the members of a non-empty JSON object up to and including the
closing brace, accumulating into a Python-style dict (duplicate keys
overwrite in place). -/
def parseMembers : Nat → List (String × Json) → List Char →
    Option (List (String × Json) × List Char)
  | 0, _, _ => none
  | fuel + 1, acc, input =>
    match skipWs input with
    | c :: rest =>
      if c == '"' then
        match parseStrAux (rest.length + 1) rest with
        | some (key, rest2) =>
          match skipWs rest2 with
          | ':' :: rest3 =>
            match parseValue fuel rest3 with
            | some (v, rest4) =>
              let acc1 := dictInsert acc ⟨key⟩ v
              match skipWs rest4 with
              | ',' :: r => parseMembers fuel acc1 r
              | r0 :: r => if r0 == rbrace then some (acc1, r) else none
              | [] => none
            | none => none
          | _ => none
        | none => none
      else none
    | [] => none

end

/-- Model of `json.loads` on a decoded text. The result is
`Except.error reason` when Python would raise `json.JSONDecodeError`
(error text abbreviated: Python adds a line/column suffix). -/
def json_loads (s : String) : Except String Json :=
  match parseValue (2 * s.data.length + 8) s.data with
  | none => Except.error "JSONDecodeError: Expecting value"
  | some (v, rest) =>
    if (skipWs rest).isEmpty then Except.ok v
    else Except.error "JSONDecodeError: Extra data"

/-- Hex digit character (lowercase, as `json.dumps` emits). -/
def hexDigit (n : Nat) : Char :=
  if n < 10 then Char.ofNat ('0'.toNat + n) else Char.ofNat ('a'.toNat + n - 10)

/-- A `\uXXXX` escape for a code point below 0x10000. -/
def escape4 (cp : Nat) : List Char :=
  ['\\', 'u', hexDigit (cp / 4096 % 16), hexDigit (cp / 256 % 16),
   hexDigit (cp / 16 % 16), hexDigit (cp % 16)]

/-- Escape one character as `json.dumps` does with its default
`ensure_ascii=True`: printable ASCII passes through, the short escapes are
used where defined, and everything else becomes `\uXXXX` (a surrogate pair
above 0xFFFF). -/
def escapeChar (c : Char) : List Char :=
  if c == '"' then ['\\', '"']
  else if c == '\\' then ['\\', '\\']
  else if c == '\n' then ['\\', 'n']
  else if c == '\r' then ['\\', 'r']
  else if c == '\t' then ['\\', 't']
  else if c == '\x08' then ['\\', 'b']
  else if c == '\x0c' then ['\\', 'f']
  else if 0x20 ≤ c.toNat ∧ c.toNat ≤ 0x7e then [c]
  else if c.toNat ≤ 0xFFFF then escape4 c.toNat
  else
    let v := c.toNat - 0x10000
    escape4 (0xD800 + v / 0x400) ++ escape4 (0xDC00 + v % 0x400)

/-- Serialization of a JSON string value. -/
def dumpStr (s : String) : String :=
  "\"" ++ ⟨(s.data.map escapeChar).flatten⟩ ++ "\""

mutual

/-- Model of `json.dumps` with default separators (`", "` and `": "`) and
`ensure_ascii=True`. Numbers print their stored lexeme (Python prints the
`repr` of the parsed number, which differs only for non-canonical lexemes no
claim touches). -/
def jsonDumps : Json → String
  | Json.null => "null"
  | Json.bool true => "true"
  | Json.bool false => "false"
  | Json.num lex => lex
  | Json.str s => dumpStr s
  | Json.arr elems => "[" ++ dumpsElems elems ++ "]"
  | Json.obj members => "\x7b" ++ dumpsMembers members ++ "\x7d"

/-- Comma-separated serialization of array elements. -/
def dumpsElems : List Json → String
  | [] => ""
  | [x] => jsonDumps x
  | x :: y :: rest => jsonDumps x ++ ", " ++ dumpsElems (y :: rest)

/-- Comma-separated serialization of object members. -/
def dumpsMembers : List (String × Json) → String
  | [] => ""
  | [(k, v)] => dumpStr k ++ ": " ++ jsonDumps v
  | (k, v) :: m :: rest => dumpStr k ++ ": " ++ jsonDumps v ++ ", " ++ dumpsMembers (m :: rest)

end

/-- Result of one outbound HTTP POST attempt in `_handle_beat_created`: a
response (status code and body text) or a transport exception whose `str` is
the given message. -/
inductive HttpResult where
  | resp (status_code : Nat) (text : String)
  | exc (msg : String)
deriving DecidableEq, Repr

/-- Observable actions of the dispatcher: an outbound HTTP POST (by attempt
number; the request target, form data and gateway headers of lines 199-213 do
not affect control flow and are elided), a retry-delay sleep in seconds, and a
forward to `_send_to_dlq` with `(original_message, error_reason)`. -/
inductive HandlerEffect where
  | httpPost (attempt : Nat)
  | sleep (seconds : Nat)
  | dlqSend (original_message : String) (error_reason : String)
deriving DecidableEq, Repr

/-- Did this attempt succeed? The code tests `resp.status_code in (200, 201)`;
transport exceptions are failures. -/
def httpSuccess : HttpResult → Bool
  | HttpResult.resp code _ => code == 200 || code == 201
  | HttpResult.exc _ => false

/-- The `str(last_exc)` recorded for a failed attempt: the synthesized
`Exception` message for an unexpected status, or the transport error text. -/
def errString : HttpResult → String
  | HttpResult.resp code text =>
    "Unexpected status code: " ++ toString code ++ ", body: " ++ text
  | HttpResult.exc msg => msg

/-- Python `str` of `last_exc` which is `Optional` (`str(None) = "None"`). -/
def pyOptStr : Option String → String
  | some s => s
  | none => "None"

/-- Truthiness of `payload.get(k)` (`None` when the key is absent). -/
def jtruthy : Option Json → Bool
  | none => false
  | some j => j.truthy

/-- The `for attempt in range(1, max_retries + 1)` HTTP retry loop of
`_handle_beat_created`, with `max_retries = 3` and `retry_delay = 2` at the
call site. Arguments: the oracle giving each attempt its outcome, the list of
remaining attempt numbers, and the current `last_exc`. Returns the effects
performed, the final `last_exc`, and whether the loop returned early on a
200/201 response. The `if attempt < max_retries` guard before the sleep is
equivalent to the remaining-attempts list being non-empty. -/
def httpAttempts (oracle : Nat → HttpResult) :
    List Nat → Option String → List HandlerEffect × Option String × Bool
  | [], last => ([], last, false)
  | attempt :: rest, last =>
    if httpSuccess (oracle attempt) then ([HandlerEffect.httpPost attempt], last, true)
    else
      let last1 := some (errString (oracle attempt))
      let sleeps : List HandlerEffect :=
        if rest.isEmpty then [] else [HandlerEffect.sleep 2]
      let r := httpAttempts oracle rest last1
      (HandlerEffect.httpPost attempt :: sleeps ++ r.1, r.2)

/-- Model of `_handle_beat_created`. `payload` is `event.get("payload")`
(`none` when the key is absent). A payload that is not a dict raises
(`Except.error`, re-raised by the enclosing `except`); a falsy `beatId` or
`audioUrl` logs and returns with no effect at all; otherwise the bounded HTTP
retry runs, and if no attempt returns 200/201 the payload is forwarded to the
dead-letter queue with `str(last_exc)`. -/
def handle_beat_created (oracle : Nat → HttpResult) (payload : Option Json) :
    Except String (List HandlerEffect) :=
  match payload with
  | none => Except.error "AttributeError: NoneType object has no attribute get"
  | some (Json.obj kvs) =>
    if !jtruthy (dictGet kvs "beatId") || !jtruthy (dictGet kvs "audioUrl") then
      Except.ok []
    else
      let r := httpAttempts oracle [1, 2, 3] none
      if r.2.2 then Except.ok r.1
      else
        Except.ok (r.1 ++
          [HandlerEffect.dlqSend (jsonDumps (Json.obj kvs)) (pyOptStr r.2.1)])
  | some _ => Except.error "AttributeError: object has no attribute get"

/-- Python `event_type == "BEAT_CREATED"` where `event_type` may be any JSON
value (equality with a string holds only for that string). -/
def jsonEqStr (j : Json) (s : String) : Bool :=
  match j with
  | Json.str t => t == s
  | _ => false

/-- Model of `_process_event`: `event.get("type", "UNKNOWN")` selects the
handler; only `BEAT_CREATED` is handled, every other type is logged and
acknowledged as a no-op. A non-dict event raises (`event.get` fails). -/
def process_event (oracle : Nat → HttpResult) (event : Json) :
    Except String (List HandlerEffect) :=
  match event with
  | Json.obj kvs =>
    let event_type := (dictGet kvs "type").getD (Json.str "UNKNOWN")
    if jsonEqStr event_type "BEAT_CREATED" then
      handle_beat_created oracle (dictGet kvs "payload")
    else Except.ok []
  | _ => Except.error "AttributeError: object has no attribute get"

/-- State carried through the `_consume_messages` read loop: the service
`is_connected` flag, the dead-letter records produced so far (both the
loop-level forwards from the two `except` branches and the dispatcher-level
forward after exhausted retries), all dispatcher effects, and how many
messages completed their per-message handling. `_send_to_dlq` requires a
connected producer; the read loop only runs after a successful connect, where
it is, so each forward yields one record. -/
structure ConsumeState where
  is_connected : Bool
  dlq : List (String × String)
  effects : List HandlerEffect
  handled : Nat
deriving DecidableEq, Repr

/-- The dead-letter forwards among a list of dispatcher effects. -/
def dlqOf (effs : List HandlerEffect) : List (String × String) :=
  effs.filterMap (fun e =>
    match e with
    | HandlerEffect.dlqSend o r => some (o, r)
    | _ => none)

/-- The HTTP POST attempts among a list of dispatcher effects. -/
def postsOf (effs : List HandlerEffect) : List Nat :=
  effs.filterMap (fun e =>
    match e with
    | HandlerEffect.httpPost a => some a
    | _ => none)

/-- One iteration of the read loop on a message with the given `value` bytes
(`none` models a message with `value = None`). Mirrors `_consume_messages`:
decode with `errors="replace"` (a falsy value yields `raw_value = None` and an
empty event), parse JSON, dispatch; a parse or dispatch failure is caught and
the value is re-decoded strictly for `_send_to_dlq` — if that strict decode
raises, the exception escapes the per-message handler, the outer `except`
marks the service disconnected, and the loop exits. Returns the new state and
whether the loop continues. -/
def consume_step (oracle : Nat → HttpResult) (st : ConsumeState)
    (value : Option (List Nat)) : ConsumeState × Bool :=
  let raw_value : Option String :=
    match value with
    | some bs => if bs.isEmpty then none else some (utf8DecodeReplace bs)
    | none => none
  let attempt : Except String (List HandlerEffect) :=
    match raw_value with
    | none => process_event oracle (Json.obj [])
    | some rv =>
      match json_loads rv with
      | Except.ok event => process_event oracle event
      | Except.error msg => Except.error msg
  match attempt with
  | Except.ok effs =>
    ({ st with dlq := st.dlq ++ dlqOf effs, effects := st.effects ++ effs,
               handled := st.handled + 1 }, true)
  | Except.error reason =>
    match value with
    | some bs =>
      match utf8DecodeStrict bs with
      | some s =>
        ({ st with dlq := st.dlq ++ [(s, reason)], handled := st.handled + 1 }, true)
      | none => ({ st with is_connected := false }, false)
    | none => ({ st with is_connected := false }, false)

/-- The read loop over a list of received message values: process each message
in turn, stopping (and staying stopped) when an iteration signals loop exit. -/
def consume_run (oracle : Nat → HttpResult) :
    List (Option (List Nat)) → ConsumeState → ConsumeState
  | [], st => st
  | v :: rest, st =>
    let r := consume_step oracle st v
    if r.2 then consume_run oracle rest r.1 else r.1

/-- The loop state right after a successful connect: connected, nothing
processed. -/
def initConsume : ConsumeState :=
  { is_connected := true, dlq := [], effects := [], handled := 0 }

/-- An HTTP oracle for scenarios that never reach the outbound call. -/
def oracleUnused : Nat → HttpResult := fun _ => HttpResult.exc "unreachable"

/-- An HTTP oracle answering 204 No Content (a 2xx status) to every attempt. -/
def oracle204 : Nat → HttpResult := fun _ => HttpResult.resp 204 ""

/-- An HTTP oracle raising a transport error on every attempt. -/
def oracleDown : Nat → HttpResult := fun _ => HttpResult.exc "Connection refused"

/-- A well-formed payload with both identifying fields present and truthy. -/
def goodPayload : Json :=
  Json.obj [("beatId", Json.str "b1"), ("audioUrl", Json.str "http://a/b.mp3")]

/-- The spec scenario event with `audioUrl` missing, as raw message bytes. -/
def beatCreatedMissingAudio : List Nat :=
  asciiBytes "\x7b\"type\": \"BEAT_CREATED\", \"payload\": \x7b\"beatId\": \"b1\"\x7d\x7d"

end KafkaModel

/-! Theorems: the ten claims, their helper lemmas, witnesses and
counterexamples. -/

namespace CircuitBreakerModel

/-- Helper: `on_failure` never changes the configuration fields. -/
theorem on_failure_config (b : Breaker) (t : Int) :
    (on_failure b t).failure_threshold = b.failure_threshold ∧
    (on_failure b t).success_threshold = b.success_threshold ∧
    (on_failure b t).timeout = b.timeout ∧
    (on_failure b t).excluded_paths = b.excluded_paths := by
  simp only [on_failure]
  repeat' split
  all_goals simp

/-- Helper: `on_failure` in `CLOSED` state below the threshold. -/
theorem on_failure_closed_lt (b : Breaker) (t : Int)
    (h1 : b.state = CircuitState.CLOSED) (h2 : b.failure_count + 1 < b.failure_threshold) :
    on_failure b t =
      { b with failed_requests := b.failed_requests + 1, last_failure_time := some t,
               failure_count := b.failure_count + 1 } := by
  simp [on_failure, h1]
  omega

/-- Helper: `on_failure` in `CLOSED` state reaching the threshold. -/
theorem on_failure_closed_ge (b : Breaker) (t : Int)
    (h1 : b.state = CircuitState.CLOSED) (h2 : b.failure_threshold ≤ b.failure_count + 1) :
    on_failure b t =
      { b with failed_requests := b.failed_requests + 1, last_failure_time := some t,
               failure_count := b.failure_count + 1, state := CircuitState.OPEN } := by
  simp [on_failure, h1, h2]

/-- Helper: a run of consecutive failures from `CLOSED` that exactly reaches the
failure threshold drives the breaker to `OPEN`, with `last_failure_time` set to
the time of the final failure, and does not touch the configuration. -/
theorem failRun_opens (ts : List Int) : ∀ b : Breaker, b.state = CircuitState.CLOSED →
    b.failure_count + ts.length = b.failure_threshold → ts ≠ [] →
    (failRun b ts).state = CircuitState.OPEN ∧
    (failRun b ts).last_failure_time = ts.getLast? ∧
    (failRun b ts).timeout = b.timeout ∧
    (failRun b ts).excluded_paths = b.excluded_paths := by
  induction ts with
  | nil => intro b _ _ h; exact absurd rfl h
  | cons t rest ih =>
    intro b hstate hcount _
    match rest with
    | [] =>
      have hge : b.failure_threshold ≤ b.failure_count + 1 := by
        simp at hcount; omega
      simp [failRun, on_failure_closed_ge b t hstate hge]
    | r :: rs =>
      have hlt : b.failure_count + 1 < b.failure_threshold := by
        simp at hcount ⊢; omega
      have hstep := on_failure_closed_lt b t hstate hlt
      have h1 : failRun b (t :: r :: rs) = failRun (on_failure b t) (r :: rs) := rfl
      rw [h1, hstep]
      have := ih { b with failed_requests := b.failed_requests + 1, last_failure_time := some t,
                          failure_count := b.failure_count + 1 }
        (by simp [hstate]) (by simp at hcount ⊢; omega) (by simp)
      simpa [List.getLast?_cons_cons] using this

/-- C1: from `CLOSED` with `failure_count = 0`, any sequence of
`failure_threshold` consecutive `on_failure` calls drives the breaker to `OPEN`
(part 1, with `last_failure_time` recording the last failure time, part 2);
and every subsequent admitted request on a non-excluded path made while less
than `timeout` seconds have elapsed since that last failure is rejected with a
503 whose `retry_after` equals `timeout - (now - last_failure_time)`, with
`total_requests` and `rejected_requests` incremented and the guarded operation
not invoked (part 3, stated for every breaker in the post-trip configuration so
that it covers each of the consecutive rejected calls). -/
theorem C1_trip_then_reject
    (b0 : Breaker) (ts : List Int) (tl now : Int) (path : String) (h : HandlerOutcome)
    (h_closed : b0.state = CircuitState.CLOSED) (h_fc : b0.failure_count = 0)
    (h_thr : 0 < b0.failure_threshold) (h_len : ts.length = b0.failure_threshold)
    (h_last : ts.getLast? = some tl)
    (h_now : now - tl < b0.timeout)
    (h_path : should_exclude_path b0 path = false) :
    (failRun b0 ts).state = CircuitState.OPEN ∧
    (failRun b0 ts).last_failure_time = some tl ∧
    (∀ b : Breaker, b.state = CircuitState.OPEN → b.last_failure_time = some tl →
      b.timeout = b0.timeout → b.excluded_paths = b0.excluded_paths →
      middleware b now path h =
        ({ b with total_requests := b.total_requests + 1,
                  rejected_requests := b.rejected_requests + 1 },
         MwResponse.reject 503 (b0.timeout - (now - tl)), false)) := by
  have hne : ts ≠ [] := by
    intro hnil; rw [hnil] at h_len; simp at h_len; omega
  obtain ⟨hopen, hlft, _, _⟩ := failRun_opens ts b0 h_closed (by omega) hne
  refine ⟨hopen, by rw [hlft, h_last], ?_⟩
  intro b hb hblft hbt hbe
  have hexc : should_exclude_path b path = false := by
    simpa [should_exclude_path, hbe] using h_path
  have hcond : ¬ (lftTruthy (some tl) = true ∧ now - tl > b0.timeout) := by
    rintro ⟨-, hgt⟩
    omega
  simp only [middleware, call, hexc, Bool.false_eq_true, if_false, hb, if_pos rfl, hblft,
    lftVal, hbt, if_true, hcond, if_false]

theorem C1_witness :
    middleware c1TripState 150 "/api/v1/items" (HandlerOutcome.status 200) =
      ({ c1TripState with total_requests := c1TripState.total_requests + 1,
                          rejected_requests := c1TripState.rejected_requests + 1 },
       MwResponse.reject 503 (defaultBreaker.timeout - (150 - 104)), false) :=
  (C1_trip_then_reject defaultBreaker [100, 101, 102, 103, 104] 104 150 "/api/v1/items"
      (HandlerOutcome.status 200) rfl rfl (by decide) (by decide) (by decide) (by decide)
      (by decide)).2.2
    c1TripState (by decide) (by decide) (by decide) (by decide)

/-- Helper: `on_success` in `HALF_OPEN` state reaching the success threshold. -/
theorem on_success_halfopen_ge (c : Breaker)
    (h1 : c.state = CircuitState.HALF_OPEN) (h2 : c.success_threshold ≤ c.success_count + 1) :
    on_success c =
      { c with state := CircuitState.CLOSED, failure_count := 0, success_count := 0 } := by
  simp [on_success, h1, h2]

/-- Helper: `on_success` in `HALF_OPEN` state below the success threshold. -/
theorem on_success_halfopen_lt (c : Breaker)
    (h1 : c.state = CircuitState.HALF_OPEN) (h2 : c.success_count + 1 < c.success_threshold) :
    on_success c = { c with success_count := c.success_count + 1 } := by
  simp [on_success, h1]
  omega

/-- Helper: from `HALF_OPEN`, a run of consecutive successes that exactly
reaches the success threshold closes the circuit and zeroes both counters. -/
theorem successRun_closes (k : Nat) : ∀ c : Breaker, c.state = CircuitState.HALF_OPEN →
    c.success_count + k = c.success_threshold → 0 < k →
    (successRun c k).state = CircuitState.CLOSED ∧
    (successRun c k).failure_count = 0 ∧
    (successRun c k).success_count = 0 := by
  induction k with
  | zero => intro c _ _ hk; omega
  | succ k ih =>
    intro c hstate hcount _
    have hstep : successRun c (k + 1) = successRun (on_success c) k := by
      simp [successRun, Function.iterate_succ_apply]
    match k, hcount with
    | 0, hcount =>
      have hge : c.success_threshold ≤ c.success_count + 1 := by omega
      simp [hstep, successRun, on_success_halfopen_ge c hstate hge]
    | k' + 1, hcount =>
      have hlt : c.success_count + 1 < c.success_threshold := by omega
      rw [hstep, on_success_halfopen_lt c hstate hlt]
      exact ih _ (by simp [hstate]) (by simp; omega) (by omega)

/-- C2: while `OPEN` with a (positive) recorded last failure time, once more
than `timeout` seconds have elapsed, the next `call` on a non-excluded path
allows the request and moves the breaker to `HALF_OPEN` with `success_count`
reset to 0 (part 1); from `HALF_OPEN` with `success_count = 0`, a run of
`success_threshold` consecutive `on_success` calls closes the circuit with both
counters zeroed (part 2); and a single `on_failure` from `HALF_OPEN` reopens
the circuit immediately (part 3). -/
theorem C2_halfopen_cycle
    (b : Breaker) (tl now : Int) (path : String)
    (h_open : b.state = CircuitState.OPEN) (h_lft : b.last_failure_time = some tl)
    (h_tl : 0 < tl) (h_now : now - tl > b.timeout)
    (h_path : should_exclude_path b path = false) :
    call b now path =
      ({ b with total_requests := b.total_requests + 1,
                state := CircuitState.HALF_OPEN, success_count := 0 }, none) ∧
    (∀ c : Breaker, c.state = CircuitState.HALF_OPEN → c.success_count = 0 →
       0 < c.success_threshold →
       (successRun c c.success_threshold).state = CircuitState.CLOSED ∧
       (successRun c c.success_threshold).failure_count = 0 ∧
       (successRun c c.success_threshold).success_count = 0) ∧
    (∀ (c : Breaker) (t : Int), c.state = CircuitState.HALF_OPEN →
       (on_failure c t).state = CircuitState.OPEN) := by
  refine ⟨?_, ?_, ?_⟩
  · have hcond : lftTruthy (some tl) = true ∧ now - tl > b.timeout := by
      constructor
      · simp [lftTruthy]; omega
      · exact h_now
    simp only [call, h_path, Bool.false_eq_true, if_false, h_open, if_pos rfl, h_lft, lftVal,
      if_true, hcond]
    rw [if_pos ⟨trivial, trivial⟩]
  · intro c hc hsc hthr
    exact successRun_closes c.success_threshold c hc (by omega) hthr
  · intro c t hc
    simp [on_failure, hc]

theorem C2_witness :
    call ({ defaultBreaker with
            state := CircuitState.OPEN
            failure_count := 5
            failed_requests := 5
            last_failure_time := some 104 }) 165 "/api/v1/items" =
      ({ defaultBreaker with
         state := CircuitState.HALF_OPEN
         failure_count := 5
         failed_requests := 5
         last_failure_time := some 104
         total_requests := 1 }, none) ∧
    (successRun { defaultBreaker with state := CircuitState.HALF_OPEN } 2).state =
      CircuitState.CLOSED ∧
    (on_failure { defaultBreaker with state := CircuitState.HALF_OPEN } 200).state =
      CircuitState.OPEN := by
  have h := C2_halfopen_cycle
    ({ defaultBreaker with
       state := CircuitState.OPEN
       failure_count := 5
       failed_requests := 5
       last_failure_time := some 104 }) 104 165 "/api/v1/items"
    rfl rfl (by decide) (by decide) (by decide)
  refine ⟨h.1.trans (by decide), ?_, ?_⟩
  · exact (h.2.1 { defaultBreaker with state := CircuitState.HALF_OPEN } rfl rfl (by decide)).1
  · exact h.2.2 { defaultBreaker with state := CircuitState.HALF_OPEN } 200 rfl

/-- C8 counterexample: the path `/api/health` does not begin with any of the
configured excluded prefixes of the default breaker, yet `call` allows it
without incrementing `total_requests` (because the code tests substring
containment, `excluded in path`, not a prefix). -/
theorem C8_counterexample :
    (defaultBreaker.excluded_paths.all
      (fun e => ! e.data.isPrefixOf "/api/health".data)) = true ∧
    call defaultBreaker 0 "/api/health" = (defaultBreaker, none) := by decide

/-- C8 (amended): the exclusion test is a substring match. A path containing
one of the configured excluded strings anywhere is always allowed with no state
change at all, and `call` on a path containing none of them increments
`total_requests`. -/
theorem C8_substring_exclusion (b : Breaker) (now : Int) (path : String) :
    ((∃ e ∈ b.excluded_paths, strContainsSub path e = true) →
       call b now path = (b, none)) ∧
    ((∀ e ∈ b.excluded_paths, strContainsSub path e = false) →
       (call b now path).1.total_requests = b.total_requests + 1) := by
  constructor
  · intro hex
    have hexc : should_exclude_path b path = true := by
      simp only [should_exclude_path, List.any_eq_true]
      exact hex
    simp [call, hexc]
  · intro hall
    have hexc : should_exclude_path b path = false := by
      simp only [should_exclude_path, List.any_eq_false]
      intro e he
      simp [hall e he]
    by_cases h1 : b.state = CircuitState.OPEN
    · by_cases h2 : lftTruthy b.last_failure_time = true ∧
          b.timeout < now - lftVal b.last_failure_time
      · simp [call, hexc, h1, h2]
      · simp [call, hexc, h1, h2]
    · simp [call, hexc, h1]

theorem C8_witness :
    call defaultBreaker 7 "/api/docs/page" = (defaultBreaker, none) ∧
    (call defaultBreaker 7 "/api/v1/items").1.total_requests =
      defaultBreaker.total_requests + 1 :=
  ⟨(C8_substring_exclusion defaultBreaker 7 "/api/docs/page").1 (by decide),
   (C8_substring_exclusion defaultBreaker 7 "/api/v1/items").2 (by decide)⟩

/-- C10: `on_success` while the breaker is `OPEN` is a no-op: the whole breaker
state (state, counters, last failure time, metrics) is unchanged. -/
theorem C10_open_success_noop (b : Breaker) (h : b.state = CircuitState.OPEN) :
    on_success b = b := by
  simp [on_success, h]

theorem C10_witness :
    on_success ({ defaultBreaker with
                  state := CircuitState.OPEN
                  last_failure_time := some 104
                  failed_requests := 5 }) =
      { defaultBreaker with
        state := CircuitState.OPEN
        last_failure_time := some 104
        failed_requests := 5 } :=
  C10_open_success_noop _ rfl

end CircuitBreakerModel

namespace RateLimiterModel

open CircuitBreakerModel (strContainsSub)

/-- C7: an authenticated request (a `request.state.user` dict, whose `userId`
the authentication middleware guarantees non-empty) is keyed `user:<userId>`
and gets the tier-table quota for its plan with fallback to the free quota;
an unauthenticated request is keyed `ip:<remote address>` with the fixed
`10/minute` quota. -/
theorem C7_key_and_quota (user : Option GatewayUser) (remote_addr : String) :
    (∀ u : GatewayUser, user = some u → u.userId ≠ "" →
       get_user_identifier user remote_addr = "user:" ++ u.userId ∧
       get_rate_limit_for_user user = tierQuotaSpec u.pricingPlan) ∧
    (user = none →
       get_user_identifier user remote_addr = "ip:" ++ remote_addr ∧
       get_rate_limit_for_user user = "10/minute") := by
  constructor
  · rintro u rfl hne
    refine ⟨by simp [get_user_identifier, hne], ?_⟩
    cases hp : u.pricingPlan with
    | none => simp [get_rate_limit_for_user, tierQuotaSpec, hp]
    | some p =>
      by_cases h1 : p = "free"
      · simp [get_rate_limit_for_user, tierQuotaSpec, hp, rate_limits, List.lookup, h1]
      · have e1 : (p == "free") = false := by simp [h1]
        by_cases h2 : p = "pro"
        · simp [get_rate_limit_for_user, tierQuotaSpec, hp, rate_limits, List.lookup,
            e1, h1, h2]
        · have e2 : (p == "pro") = false := by simp [h2]
          by_cases h3 : p = "studio"
          · simp [get_rate_limit_for_user, tierQuotaSpec, hp, rate_limits, List.lookup,
              e1, e2, h1, h2, h3]
          · have e3 : (p == "studio") = false := by simp [h3]
            simp [get_rate_limit_for_user, tierQuotaSpec, hp, rate_limits, List.lookup,
              e1, e2, e3, h1, h2, h3]
  · rintro rfl
    exact ⟨rfl, rfl⟩

theorem C7_witness :
    get_user_identifier (some ⟨"u1", some "pro"⟩) "203.0.113.9" = "user:u1" ∧
    get_rate_limit_for_user (some ⟨"u1", some "pro"⟩) = "50/minute" ∧
    get_user_identifier none "203.0.113.9" = "ip:203.0.113.9" ∧
    get_rate_limit_for_user none = "10/minute" := by
  obtain ⟨ha, hb⟩ :=
    (C7_key_and_quota (some ⟨"u1", some "pro"⟩) "203.0.113.9").1 ⟨"u1", some "pro"⟩ rfl
      (by decide)
  obtain ⟨hc, hd⟩ := (C7_key_and_quota (none : Option GatewayUser) "203.0.113.9").2 rfl
  exact ⟨ha, hb.trans (by decide), hc, hd⟩

/-- C6 counterexample: with the detail string slowapi actually produces for an
exceeded limit (`str(limit.limit)`, e.g. `"20 per 1 minute"`, which never
contains `"Retry after"`), the handler returns a 429 whose payload has
`retryAfter = None` — not a positive value derived from the remaining window
time. The plan is surfaced and the status is 429, but the `retryAfter` half of
the claim fails. -/
theorem C6_counterexample :
    rate_limit_handler (some ⟨"u1", some "free"⟩) "20 per 1 minute" =
      Except.ok (429, rejectionContent (some "free") none) := rfl

/-- C6 (amended): `retryAfter` is not derived from the remaining window time
but parsed from the exception detail text, and the rejection is a 429
surfacing the caller's stored plan only when that parse does not raise. When
the detail does not contain `"Retry after"` the handler returns a 429 with
`retryAfter = None` (the case for slowapi's default detail format); when it
does and the split on `"Retry after "` has a second element, the handler
returns a 429 with that element as `retryAfter`; and when the detail contains
`"Retry after"` but the split has no second element (no occurrence is
followed by a space), the `[1]` indexing raises `IndexError` and no 429
response is built at all. -/
theorem C6_rejection_payload (user : Option GatewayUser) (detail : String) :
    (strContainsSub detail "Retry after" = false →
      rate_limit_handler user detail =
        Except.ok (429, rejectionContent (handlerPlan user) none)) ∧
    (strContainsSub detail "Retry after" = true →
      ∀ s : String, (pySplit detail "Retry after ").get? 1 = some s →
      rate_limit_handler user detail =
        Except.ok (429, rejectionContent (handlerPlan user) (some s))) ∧
    (strContainsSub detail "Retry after" = true →
      (pySplit detail "Retry after ").get? 1 = none →
      rate_limit_handler user detail =
        Except.error "IndexError: list index out of range") := by
  refine ⟨?_, ?_, ?_⟩
  · intro h
    simp [rate_limit_handler, h]
  · intro h s hs
    simp only [List.get?_eq_getElem?] at hs
    simp [rate_limit_handler, pyIndex, Except.map, h, hs]
  · intro h hs
    simp only [List.get?_eq_getElem?] at hs
    simp [rate_limit_handler, pyIndex, Except.map, h, hs]

theorem C6_witness :
    rate_limit_handler (some ⟨"u2", some "pro"⟩) "rate limited. Retry after 30 seconds" =
      Except.ok (429, rejectionContent (some "pro") (some "30 seconds")) ∧
    rate_limit_handler none "5 per 15 minute" =
      Except.ok (429, rejectionContent (some "free") none) ∧
    rate_limit_handler (some ⟨"u2", some "pro"⟩) "Retry after" =
      Except.error "IndexError: list index out of range" := by
  obtain ⟨-, h2, -⟩ :=
    C6_rejection_payload (some ⟨"u2", some "pro"⟩) "rate limited. Retry after 30 seconds"
  obtain ⟨h1, -, -⟩ := C6_rejection_payload none "5 per 15 minute"
  obtain ⟨-, -, h3⟩ := C6_rejection_payload (some ⟨"u2", some "pro"⟩) "Retry after"
  exact ⟨h2 (by decide) "30 seconds" (by decide), h1 (by decide),
    h3 (by decide) (by decide)⟩

end RateLimiterModel

namespace KafkaModel

/-- Helper: one-step unfolding of `connect_run`. -/
theorem connect_run_cons (s : KafkaConnSettings) (a : Nat) (ok : Bool) (rest : List Bool) :
    connect_run s a (ok :: rest) =
      (let st := connect_attempt_step s a ok
       if st.exited then (st.attempt, [], true)
       else
         let r := connect_run s st.attempt rest
         (r.1, st.slept.toList ++ r.2.1, r.2.2)) := rfl

/-- Helper: a full cycle of failures. If the loop is at `attempt = a` and the
next `k ≥ 1` attempts all fail, where `a + k = max_retries + 1` (so the `k`-th
failure is the one at `attempt = max_retries`), then the loop sleeps the short
retry delay `k - 1` times followed by one cooldown sleep, and the attempt
counter is back at 1. -/
theorem connect_run_fail_cycle (s : KafkaConnSettings) (k : Nat) :
    ∀ a : Nat, 0 < k → a + k = s.KAFKA_CONNECTION_MAX_RETRIES + 1 →
    connect_run s a (List.replicate k false) =
      (1, List.replicate (k - 1) (retry_delay s) ++ [cooldown_after_fail s], false) := by
  induction k with
  | zero => intro a h _; omega
  | succ k ih =>
    intro a _ hsum
    match k, hsum with
    | 0, hsum =>
      have hge : a ≥ s.KAFKA_CONNECTION_MAX_RETRIES := by omega
      simp [connect_run, connect_attempt_step, hge]
    | k' + 1, hsum =>
      have hlt : ¬ (a ≥ s.KAFKA_CONNECTION_MAX_RETRIES) := by omega
      have hstep : connect_attempt_step s a false =
          { attempt := a + 1, is_connected := false, slept := some (retry_delay s),
            exited := false } := by
        simp [connect_attempt_step, hlt]
      have hrec := ih (a + 1) (by omega) (by omega)
      show connect_run s a (false :: List.replicate (k' + 1) false) = _
      rw [connect_run_cons, hstep]
      dsimp only
      rw [hrec]
      simp [List.replicate_succ]

/-- C5: behaviour of the consumer connect loop. Per-iteration: a failure at
`attempt ≥ max_retries` sleeps the cooldown and resets `attempt` to 1; a
failure at `attempt < max_retries` sleeps the short retry delay and increments
`attempt`; a success resets `attempt` to 1 and exits the loop. Moreover a
whole cycle of `max_retries` consecutive failures starting from `attempt = 1`
sleeps the retry delay `max_retries - 1` times, then the cooldown once, ending
with `attempt` reset to 1. -/
theorem C5_connect_retry_cooldown (s : KafkaConnSettings) (attempt : Nat) :
    (attempt ≥ s.KAFKA_CONNECTION_MAX_RETRIES →
      connect_attempt_step s attempt false =
        { attempt := 1, is_connected := false,
          slept := some (cooldown_after_fail s), exited := false }) ∧
    (attempt < s.KAFKA_CONNECTION_MAX_RETRIES →
      connect_attempt_step s attempt false =
        { attempt := attempt + 1, is_connected := false,
          slept := some (retry_delay s), exited := false }) ∧
    (connect_attempt_step s attempt true =
      { attempt := 1, is_connected := true, slept := none, exited := true }) ∧
    (0 < s.KAFKA_CONNECTION_MAX_RETRIES →
      connect_run s 1 (List.replicate s.KAFKA_CONNECTION_MAX_RETRIES false) =
        (1, List.replicate (s.KAFKA_CONNECTION_MAX_RETRIES - 1) (retry_delay s) ++
            [cooldown_after_fail s], false)) := by
  refine ⟨?_, ?_, ?_, ?_⟩
  · intro h
    simp [connect_attempt_step, h]
  · intro h
    simp [connect_attempt_step, Nat.not_le.mpr h]
  · simp [connect_attempt_step]
  · intro h
    exact connect_run_fail_cycle s s.KAFKA_CONNECTION_MAX_RETRIES 1 h (by omega)

theorem C5_witness :
    connect_attempt_step defaultConnSettings 10 false =
      { attempt := 1, is_connected := false, slept := some 30, exited := false } ∧
    connect_attempt_step defaultConnSettings 3 false =
      { attempt := 4, is_connected := false, slept := some 3, exited := false } ∧
    connect_attempt_step defaultConnSettings 7 true =
      { attempt := 1, is_connected := true, slept := none, exited := true } ∧
    connect_run defaultConnSettings 1 (List.replicate 10 false) =
      (1, List.replicate 9 3 ++ [30], false) := by
  have hr : retry_delay defaultConnSettings = 3 := by
    norm_num [retry_delay, defaultConnSettings]
  have hc : cooldown_after_fail defaultConnSettings = 30 := by
    norm_num [cooldown_after_fail, defaultConnSettings]
  have h10 := C5_connect_retry_cooldown defaultConnSettings 10
  have h3 := C5_connect_retry_cooldown defaultConnSettings 3
  have h7 := C5_connect_retry_cooldown defaultConnSettings 7
  refine ⟨?_, ?_, h7.2.2.1, ?_⟩
  · rw [h10.1 (by decide), hc]
  · rw [h3.2.1 (by decide), hr]
  · have h := h10.2.2.2 (by decide)
    rw [hr, hc] at h
    exact h

/-! Sanity checks that the decoding pipeline models evaluate as Python does
on representative inputs. -/

theorem sanity_utf8_strict :
    utf8DecodeStrict [0xFF] = none ∧
    utf8DecodeStrict (asciiBytes "ab c") = some "ab c" ∧
    utf8DecodeStrict [0xC3, 0xA9] = some "é" := by decide

theorem sanity_utf8_replace :
    utf8DecodeReplace [0xFF] = "�" ∧
    utf8DecodeReplace (asciiBytes "ab c") = "ab c" ∧
    utf8DecodeReplace [0xE2, 0x82] = "�" := by decide

theorem sanity_json_loads_rejects :
    json_loads "�" = Except.error "JSONDecodeError: Expecting value" ∧
    json_loads "not json" = Except.error "JSONDecodeError: Expecting value" :=
  ⟨rfl, rfl⟩

theorem sanity_json_loads_object :
    json_loads " \x7b\"a\": [1, 2.5e3, \"x\"], \"b\": null, \"a\": true\x7d " =
      Except.ok (Json.obj [("a", Json.bool true), ("b", Json.null)]) := rfl

theorem sanity_json_dumps :
    jsonDumps (Json.obj [("beatId", Json.str "b1"), ("x", Json.num "3")]) =
      "\x7b\"beatId\": \"b1\", \"x\": 3\x7d" := rfl

/-- C3 counterexample: for a `BEAT_CREATED` event whose payload carries only
`beatId` (no `audioUrl`), the dispatcher returns after logging with no effect
at all (`Except.ok []`): no outbound HTTP call, but also zero dead-letter
records — not exactly one as claimed. The second conjunct evaluates the whole
read loop on the raw message: it completes the message with an empty
dead-letter list, no HTTP attempt, and the connection still up. -/
theorem C3_counterexample :
    handle_beat_created oracleUnused (some (Json.obj [("beatId", Json.str "b1")])) =
      Except.ok [] ∧
    consume_run oracleUnused [some beatCreatedMissingAudio] initConsume =
      { is_connected := true, dlq := [], effects := [], handled := 1 } := by
  exact ⟨rfl, by decide⟩

/-- C3 (amended): a `BEAT_CREATED` payload missing `beatId` or `audioUrl`
fails validation immediately: the handler logs and returns with no outbound
HTTP call and no dead-letter record (the failure is not forwarded to the
dead-letter queue, contrary to the original claim). -/
theorem C3_missing_field_no_call_no_dlq (oracle : Nat → HttpResult)
    (kvs : List (String × Json))
    (h : dictGet kvs "beatId" = none ∨ dictGet kvs "audioUrl" = none) :
    handle_beat_created oracle (some (Json.obj kvs)) = Except.ok [] := by
  unfold handle_beat_created
  rcases h with h | h <;> simp [jtruthy, h]

theorem C3_witness :
    handle_beat_created oracle204
      (some (Json.obj [("beatId", Json.str "b1"), ("userId", Json.str "u1")])) =
      Except.ok [] :=
  C3_missing_field_no_call_no_dlq oracle204 _ (Or.inr rfl)

/-- C4 (code bug): a message whose bytes are not valid UTF-8 (here the single
byte `0xFF`) decodes with `errors="replace"` to a string that fails JSON
parsing; the `except` branch then re-decodes the bytes strictly
(`message.value.decode("utf-8")`) to build the dead-letter payload, which
raises `UnicodeDecodeError` inside the handler — so the read loop exits with
the connection marked disconnected, zero dead-letter records, and the
remaining messages unprocessed (first conjunct). By contrast a strictly
decodable non-JSON message produces exactly one dead-letter record with the
original text and the loop continues to the next message (second conjunct),
which is the behaviour the claim describes for every undecodable message. -/
theorem C4_invalid_utf8_kills_loop :
    consume_run oracleUnused [some [0xFF], some (asciiBytes "x")] initConsume =
      { is_connected := false, dlq := [], effects := [], handled := 0 } ∧
    consume_run oracleUnused
      [some (asciiBytes "not json"), some (asciiBytes "\x7b\x7d")] initConsume =
      { is_connected := true, dlq := [("not json", "JSONDecodeError: Expecting value")],
        effects := [], handled := 2 } := by
  exact ⟨by decide, by decide⟩

/-- C9 counterexample: with every attempt answered `204 No Content` — a 2xx
status — the dispatcher does not treat the response as success: it performs
all three attempts with the fixed 2-second delay between them and then
forwards the payload to the dead-letter queue, because the code tests
`status_code in (200, 201)`, not "any 2xx". Under the claim a first-attempt
2xx response would have ended the retries with one attempt and no dead-letter
record. -/
theorem C9_counterexample :
    handle_beat_created oracle204 (some goodPayload) =
      Except.ok [HandlerEffect.httpPost 1, HandlerEffect.sleep 2, HandlerEffect.httpPost 2,
        HandlerEffect.sleep 2, HandlerEffect.httpPost 3,
        HandlerEffect.dlqSend "\x7b\"beatId\": \"b1\", \"audioUrl\": \"http://a/b.mp3\"\x7d"
          "Unexpected status code: 204, body: "] := rfl

/-- C9 (amended): for a validated payload the outbound call is retried up to 3
attempts with a fixed 2-second delay between attempts; a response with status
200 or 201 is a success that ends the retries, while every other status and
every transport error is a retryable failure; exhausting all 3 attempts
produces exactly one dead-letter forward carrying the last observed error. -/
theorem C9_bounded_retry (oracle : Nat → HttpResult) (kvs : List (String × Json))
    (hb : jtruthy (dictGet kvs "beatId") = true)
    (ha : jtruthy (dictGet kvs "audioUrl") = true) :
    (httpSuccess (oracle 1) = true →
      handle_beat_created oracle (some (Json.obj kvs)) =
        Except.ok [HandlerEffect.httpPost 1]) ∧
    (httpSuccess (oracle 1) = false → httpSuccess (oracle 2) = true →
      handle_beat_created oracle (some (Json.obj kvs)) =
        Except.ok [HandlerEffect.httpPost 1, HandlerEffect.sleep 2,
          HandlerEffect.httpPost 2]) ∧
    (httpSuccess (oracle 1) = false → httpSuccess (oracle 2) = false →
      httpSuccess (oracle 3) = true →
      handle_beat_created oracle (some (Json.obj kvs)) =
        Except.ok [HandlerEffect.httpPost 1, HandlerEffect.sleep 2, HandlerEffect.httpPost 2,
          HandlerEffect.sleep 2, HandlerEffect.httpPost 3]) ∧
    (httpSuccess (oracle 1) = false → httpSuccess (oracle 2) = false →
      httpSuccess (oracle 3) = false →
      handle_beat_created oracle (some (Json.obj kvs)) =
        Except.ok [HandlerEffect.httpPost 1, HandlerEffect.sleep 2, HandlerEffect.httpPost 2,
          HandlerEffect.sleep 2, HandlerEffect.httpPost 3,
          HandlerEffect.dlqSend (jsonDumps (Json.obj kvs)) (errString (oracle 3))]) := by
  refine ⟨?_, ?_, ?_, ?_⟩
  · intro h1
    unfold handle_beat_created
    simp [hb, ha, httpAttempts, h1]
  · intro h1 h2
    unfold handle_beat_created
    simp [hb, ha, httpAttempts, h1, h2]
  · intro h1 h2 h3
    unfold handle_beat_created
    simp [hb, ha, httpAttempts, h1, h2, h3]
  · intro h1 h2 h3
    unfold handle_beat_created
    simp [hb, ha, httpAttempts, h1, h2, h3, pyOptStr]

theorem C9_witness :
    handle_beat_created oracleDown (some goodPayload) =
      Except.ok [HandlerEffect.httpPost 1, HandlerEffect.sleep 2, HandlerEffect.httpPost 2,
        HandlerEffect.sleep 2, HandlerEffect.httpPost 3,
        HandlerEffect.dlqSend "\x7b\"beatId\": \"b1\", \"audioUrl\": \"http://a/b.mp3\"\x7d"
          "Connection refused"] ∧
    handle_beat_created (fun _ => HttpResult.resp 201 "ok") (some goodPayload) =
      Except.ok [HandlerEffect.httpPost 1] := by
  have hfail := C9_bounded_retry oracleDown
    [("beatId", Json.str "b1"), ("audioUrl", Json.str "http://a/b.mp3")] rfl rfl
  have hok := C9_bounded_retry (fun _ => HttpResult.resp 201 "ok")
    [("beatId", Json.str "b1"), ("audioUrl", Json.str "http://a/b.mp3")] rfl rfl
  exact ⟨(hfail.2.2.2 rfl rfl rfl).trans (by rfl), hok.1 rfl⟩

end KafkaModel
